import Mathlib

/-!
Verification of the pgfplots code-generation library: a shallow embedding of
the two source files `src/lib.rs` and `src/axis.rs`.

The Rust `Display` implementations write text into a formatter; `Axis`'s
implementation reaches an unconditional `todo!()` after emitting its opening
tag and option block.  We model a `Display` call as a pure function returning
the text written to the formatter before the call returns or aborts, together
with a flag recording whether the call aborted (`todo!()` panicked).
-/

/-- Result of a `fmt::Display` call: the text written to the formatter before
the call finished or aborted, and whether it aborted via a panic. -/
structure FmtResult where
  out : String
  panicked : Bool
  deriving Repr, DecidableEq

/-- `enum XMode` from `src/axis.rs`: scaling of the x axis. -/
inductive XMode where
  | Log
  | Normal
  deriving Repr, DecidableEq

/-- `enum YMode` from `src/axis.rs`: scaling of the y axis. -/
inductive YMode where
  | Log
  | Normal
  deriving Repr, DecidableEq

/-- `impl fmt::Display for XMode` from `src/axis.rs`. -/
def XMode.render : XMode → String
  | XMode.Log => "log"
  | XMode.Normal => "normal"

/-- `impl fmt::Display for YMode` from `src/axis.rs`. -/
def YMode.render : YMode → String
  | YMode.Log => "log"
  | YMode.Normal => "normal"

/-- `enum AxisKey` from `src/axis.rs`. -/
inductive AxisKey where
  | Custom (key : String)
  | XMode (value : XMode)
  | YMode (value : YMode)
  deriving Repr, DecidableEq

/-- `impl fmt::Display for AxisKey` from `src/axis.rs`. -/
def AxisKey.render : AxisKey → String
  | AxisKey.Custom key => key
  | AxisKey.XMode value => "xmode=" ++ value.render
  | AxisKey.YMode value => "ymode=" ++ value.render

/-- `struct Axis` from `src/axis.rs`. -/
structure Axis where
  keys : List AxisKey
  deriving Repr, DecidableEq

/-- `impl fmt::Display for Axis` from `src/axis.rs`.  The source writes
`\begin{axis}`, then — only if the key list is non-empty — `[\n`, one
`\t<key>,\n` line per key, and `]`; then a newline; then reaches the
unconditional `todo!()` (the `\end{axis}` line below it is never written),
so the call always aborts with exactly that prefix emitted. -/
def Axis.fmt (a : Axis) : FmtResult :=
  let s := "\\begin{axis}"
  let s := if !a.keys.isEmpty then
      s ++ "[\n" ++ String.join (a.keys.map (fun key => "\t" ++ key.render ++ ",\n")) ++ "]"
    else s
  let s := s ++ "\n"
  { out := s, panicked := true }

/-- `enum PictureKey` from `src/lib.rs`. -/
inductive PictureKey where
  | Custom (key : String)
  deriving Repr, DecidableEq

/-- `impl fmt::Display for PictureKey` from `src/lib.rs`. -/
def PictureKey.render : PictureKey → String
  | PictureKey.Custom key => key

/-- `struct Picture` from `src/lib.rs`. -/
structure Picture where
  keys : List PictureKey
  axes : List Axis
  deriving Repr, DecidableEq

/-- The `for axis in self.axes.iter() { writeln!(f, "{axis}")?; }` loop of
`impl fmt::Display for Picture` in `src/lib.rs`: each axis's `Display` output
is written followed by a newline; if an axis's `Display` call panics, the
loop aborts with the text written so far. -/
def Picture.renderAxes : List Axis → String → FmtResult
  | [], acc => { out := acc, panicked := false }
  | axis :: rest, acc =>
    let r := Axis.fmt axis
    if r.panicked then { out := acc ++ r.out, panicked := true }
    else Picture.renderAxes rest (acc ++ r.out ++ "\n")

/-- `impl fmt::Display for Picture` from `src/lib.rs`: writes
`\begin{tikzpicture}`, then — only if the key list is non-empty — `[\n`,
one `\t<key>,\n` line per key, and `]`; then a newline; then each axis on
its own line; then `\end{tikzpicture}`. -/
def Picture.fmt (p : Picture) : FmtResult :=
  let s := "\\begin{tikzpicture}"
  let s := if !p.keys.isEmpty then
      s ++ "[\n" ++ String.join (p.keys.map (fun key => "\t" ++ key.render ++ ",\n")) ++ "]"
    else s
  let s := s ++ "\n"
  let r := Picture.renderAxes p.axes s
  if r.panicked then r
  else { out := r.out ++ "\\end{tikzpicture}", panicked := false }

/-- `Picture::new` from `src/lib.rs`: `Default::default()`, i.e. empty key
list and empty axis list. -/
def Picture.new : Picture :=
  { keys := [], axes := [] }

/-- `Picture::add_key` from `src/lib.rs`: the `match` on the key is a no-op
for the only variant `Custom`, then the key is pushed onto `self.keys`. -/
def Picture.add_key (p : Picture) (key : PictureKey) : Picture :=
  match key with
  | PictureKey.Custom _ => { p with keys := p.keys ++ [key] }

/-- Modelled from the spec: `Axis::new` is part of the repository's public
surface per the spec (§4.2, "`new()`: returns an environment with no
options") but its body is not under `src/` — only the `Axis` struct
declaration is present there. -/
def Axis.new : Axis :=
  { keys := [] }

/-- Modelled from the spec: `Axis::add_key` is part of the repository's
public surface per the spec (§4.2, "`add_key(key)`: appends a key to the
ordered option list") but its body is not under `src/` — only the `Axis`
struct declaration is present there. -/
def Axis.add_key (a : Axis) (key : AxisKey) : Axis :=
  { a with keys := a.keys ++ [key] }

/-! Helper lemmas shared by several claims. -/

theorem Picture.add_key_spec (p : Picture) (key : PictureKey) :
    (Picture.add_key p key).keys = p.keys ++ [key] ∧
      (Picture.add_key p key).axes = p.axes := by
  cases key with
  | Custom s => exact ⟨rfl, rfl⟩

theorem Picture.foldl_add_key_keys (ks : List PictureKey) (p : Picture) :
    (ks.foldl Picture.add_key p).keys = p.keys ++ ks := by
  induction ks generalizing p with
  | nil => simp
  | cons k ks ih =>
    simp only [List.foldl_cons, ih, (Picture.add_key_spec p k).1]
    simp

theorem Picture.foldl_add_key_axes (ks : List PictureKey) (p : Picture) :
    (ks.foldl Picture.add_key p).axes = p.axes := by
  induction ks generalizing p with
  | nil => rfl
  | cons k ks ih =>
    simp only [List.foldl_cons, ih, (Picture.add_key_spec p k).2]

theorem Axis.keys_after_foldl_add_key (ks : List AxisKey) (a : Axis) :
    (ks.foldl Axis.add_key a).keys = a.keys ++ ks := by
  induction ks generalizing a with
  | nil => simp
  | cons k ks ih =>
    simp only [List.foldl_cons, ih, Axis.add_key]
    simp

theorem Axis.fmt_panicked (a : Axis) : (Axis.fmt a).panicked = true := rfl

theorem Picture.fmt_no_axes (keys : List PictureKey) :
    Picture.fmt { keys := keys, axes := [] } =
      { out := "\\begin{tikzpicture}"
          ++ (if keys.isEmpty then ""
             else "[\n" ++ String.join (keys.map (fun key => "\t" ++ key.render ++ ",\n")) ++ "]")
          ++ "\n" ++ "\\end{tikzpicture}",
        panicked := false } := by
  cases keys with
  | nil => rfl
  | cons k ks =>
    simp [Picture.fmt, Picture.renderAxes, String.append_assoc]
    conv_rhs => rw [← String.append_assoc]
    rfl

/-! The claims. -/

/-- C1: a `Picture` with zero keys and zero axes renders as exactly the
two-line text `\begin{tikzpicture}\n\end{tikzpicture}`, with no bracketed
option section, and the `Display` call does not abort. -/
theorem C1_empty_picture_render :
    Picture.fmt Picture.new =
      { out := "\\begin{tikzpicture}\n\\end{tikzpicture}", panicked := false } := by
  rfl

/-- C2: rendering any `Axis` reaches the unconditional `todo!()` abort,
whatever its key list — including an axis with no keys. -/
theorem C2_axis_render_always_aborts (a : Axis) :
    (Axis.fmt a).panicked = true :=
  Axis.fmt_panicked a

/-- C3: for an `Axis` whose option list is exactly `[XMode(Log)]`, the text
emitted by its `Display` call is `\begin{axis}` followed by a bracketed
section consisting of exactly one line, `\txmode=log,`, followed by a
newline (after which the unconditional `todo!()` aborts the call). -/
theorem C3_axis_xmode_log_bracket :
    Axis.fmt { keys := [AxisKey.XMode XMode.Log] } =
      { out := "\\begin{axis}" ++ "[\n" ++ "\txmode=log,\n" ++ "]" ++ "\n",
        panicked := true } := by
  rfl

/-- C4, counterexample: a `Picture` with the single key `Custom("baseline")`
and no axes does not render as
`\begin{tikzpicture}[\n\tbaseline,\n]\n\n\end{tikzpicture}`: the code emits a
single newline after the closing bracket, not two. -/
theorem C4_counterexample :
    (Picture.fmt { keys := [PictureKey.Custom "baseline"], axes := [] }).out ≠
      "\\begin{tikzpicture}[\n\tbaseline,\n]\n\n\\end{tikzpicture}" := by
  decide

/-- C4, amended: a `Picture` with the single key `Custom("baseline")` and no
axes renders exactly as `\begin{tikzpicture}[\n\tbaseline,\n]\n\end{tikzpicture}`
(one newline between `]` and `\end{tikzpicture}`), without aborting. -/
theorem C4_picture_baseline_render :
    Picture.fmt { keys := [PictureKey.Custom "baseline"], axes := [] } =
      { out := "\\begin{tikzpicture}[\n\tbaseline,\n]\n\\end{tikzpicture}",
        panicked := false } := by
  rfl

/-- C5: appending keys to a `Picture` is order-preserving: for any sequence
of `add_key` calls with `Custom` keys, the picture's key list is exactly that
sequence (no reordering, no deduplication), and the rendered output emits
each key verbatim, on its own tab-indented line ending in a comma, in the
call sequence. -/
theorem C5_picture_key_order (ss : List String) :
    ((ss.map PictureKey.Custom).foldl Picture.add_key Picture.new).keys
        = ss.map PictureKey.Custom ∧
    (Picture.fmt ((ss.map PictureKey.Custom).foldl Picture.add_key Picture.new)).out
        = "\\begin{tikzpicture}"
          ++ (if ss.isEmpty then ""
             else "[\n" ++ String.join (ss.map (fun s => "\t" ++ s ++ ",\n")) ++ "]")
          ++ "\n" ++ "\\end{tikzpicture}" := by
  have hk : ((ss.map PictureKey.Custom).foldl Picture.add_key Picture.new).keys
      = ss.map PictureKey.Custom := by
    simpa [Picture.new] using
      Picture.foldl_add_key_keys (ss.map PictureKey.Custom) Picture.new
  have ha : ((ss.map PictureKey.Custom).foldl Picture.add_key Picture.new).axes
      = [] := by
    simpa [Picture.new] using
      Picture.foldl_add_key_axes (ss.map PictureKey.Custom) Picture.new
  have hp : (ss.map PictureKey.Custom).foldl Picture.add_key Picture.new
      = { keys := ss.map PictureKey.Custom, axes := [] } := by
    calc (ss.map PictureKey.Custom).foldl Picture.add_key Picture.new
        = { keys := ((ss.map PictureKey.Custom).foldl Picture.add_key Picture.new).keys,
            axes := ((ss.map PictureKey.Custom).foldl Picture.add_key Picture.new).axes } := rfl
      _ = { keys := ss.map PictureKey.Custom, axes := [] } := by rw [hk, ha]
  refine ⟨hk, ?_⟩
  rw [hp, Picture.fmt_no_axes]
  cases ss with
  | nil => rfl
  | cons s ss =>
    simp [List.map_map, Function.comp_def, PictureKey.render]

/-- C6: the claim says a `Picture` containing axes `A1` then `A2` renders
`A1`'s full text block before `A2`'s inside the body; the code instead
panics at `todo!()` inside `A1`'s `Display` call — `A1`'s block is never
completed (no `\end{axis}`) and `A2` is never rendered at all.  Evaluated
here at the concrete failing input of two key-less axes. -/
theorem C6_picture_with_axes_aborts :
    Picture.fmt { keys := [], axes := [{ keys := [] }, { keys := [] }] } =
      { out := "\\begin{tikzpicture}\n\\begin{axis}\n", panicked := true } := by
  rfl

/-- C7: rendering is deterministic: evaluating the `Display` call twice on
the same unmutated `Picture` or `Axis` yields identical results — rendering
is a pure function of the environment tree. -/
theorem C7_render_deterministic (p : Picture) (a : Axis) :
    Picture.fmt p = Picture.fmt p ∧ Axis.fmt a = Axis.fmt a :=
  ⟨rfl, rfl⟩

/-- C8, counterexample: a `Picture` with one (key-less) axis does not render
successfully — its `Display` call aborts through the axis abort, refuting
"rendering of any Picture, with any keys and any axes, succeeds
unconditionally". -/
theorem C8_counterexample :
    ¬ (Picture.fmt { keys := [], axes := [{ keys := [] }] }).panicked = false := by
  decide

/-- C8, amended: `Picture::new` and `Picture::add_key` never fail (they are
total), and rendering a `Picture` succeeds unconditionally if and only if it
contains no axes; with at least one axis the only failure reached is the
documented `Axis` child-rendering abort propagating through the axis loop. -/
theorem C8_picture_render_succeeds_iff_no_axes (p : Picture) :
    (Picture.fmt p).panicked = false ↔ p.axes = [] := by
  cases hax : p.axes with
  | nil => simp [Picture.fmt, hax, Picture.renderAxes]
  | cons a rest => simp [Picture.fmt, hax, Picture.renderAxes, Axis.fmt]

/-- C9: `Axis::new` returns an axis with no options and never fails, and
`Axis::add_key` appends to the ordered option list: after any sequence of
`add_key` calls starting from `new()`, the axis holds exactly the appended
keys in call order. -/
theorem C9_axis_new_add_key (ks : List AxisKey) :
    Axis.new.keys = [] ∧ (ks.foldl Axis.add_key Axis.new).keys = ks := by
  refine ⟨rfl, ?_⟩
  simpa [Axis.new] using Axis.keys_after_foldl_add_key ks Axis.new

/-- C10: `Picture::add_key` only appends: for every picture and key, the
axes field is unchanged and the keys list is the previous list with exactly
the given key appended at the end (nothing removed or overwritten). -/
theorem C10_add_key_frame (p : Picture) (key : PictureKey) :
    (Picture.add_key p key).axes = p.axes ∧
      (Picture.add_key p key).keys = p.keys ++ [key] :=
  ⟨(Picture.add_key_spec p key).2, (Picture.add_key_spec p key).1⟩
